import Mathlib

/-!
Shallow embedding of the MCP-for-Unity bridge core (Server/server.py):
the fixed-schema wire payload built by send_ws_command, the reply
interpretation in its try block, and the tool-level dispatchers
(create_game_object, modify_transform, create_material, ping_unity).

Python floats appear only as opaque values that are moved into the wire
message, never computed with; they are modelled by Rat. JSON-decoded
values are modelled by the Json inductive below.
-/

namespace UnityMCP

/-- A JSON value as produced by json.loads / consumed by json.dumps:
null, booleans, numbers, strings, arrays and objects (Python dicts,
modelled as association lists). -/
inductive Json where
  | null : Json
  | bool : Bool → Json
  | num : Rat → Json
  | str : String → Json
  | arr : List Json → Json
  | obj : List (String × Json) → Json

/-- Python value None-or-float, as carried by an optional float parameter;
dumped to JSON as null or a number. -/
def jOpt : Option Rat → Json
  | none => Json.null
  | some q => Json.num q

/-- The dict literal syntax used by the tools for a fully supplied triple:
x, y and z all bound to numbers. -/
def vec3 (x y z : Rat) : Json :=
  Json.obj [("x", Json.num x), ("y", Json.num y), ("z", Json.num z)]

/-- The dict literal built by modify_transform: x, y and z bound to the raw
parameter values, each of which may still be None. -/
def vec3Opt (x y z : Option Rat) : Json :=
  Json.obj [("x", jOpt x), ("y", jOpt y), ("z", jOpt z)]

/-- The payload dict built at lines 13-23 of send_ws_command, after
json.dumps: one entry for the method and one per fixed wire slot.
kwargs.get of a missing key yields the slot default: the empty string for
the four string slots, None (null) for the three vector slots; a tool that
passes None explicitly (modify_transform) produces the same null, so an
Option argument of none covers both. -/
def wsPayload (method : String) (name string_param second_param value_param : Option String)
    (position rotation scale : Option Json) : List (String × Json) :=
  [("method", Json.str method),
   ("param_name", Json.str (name.getD "")),
   ("param_string", Json.str (string_param.getD "")),
   ("param_second", Json.str (second_param.getD "")),
   ("param_value", Json.str (value_param.getD "")),
   ("param_pos", position.getD Json.null),
   ("param_rot", rotation.getD Json.null),
   ("param_scale", scale.getD Json.null)]

/-- Python equality data.get("status") == "success": true exactly when the
looked-up value is the string "success". -/
def isSuccessStatus : Option Json → Bool
  | some (Json.str s) => s == "success"
  | _ => false

/-- Python equality with the string "error", used to classify host
rejection replies. -/
def isErrorStatus : Option Json → Bool
  | some (Json.str s) => s == "error"
  | _ => false

/-- Python str() applied to a JSON-decoded value, as the f-string of the
error branch does. Faithful on None, booleans and strings, the shapes a
reply message takes; numbers get their Rat rendering and containers a
schematic marker, since no reply in the protocol puts those in message. -/
def pyStr : Json → String
  | Json.null => "None"
  | Json.bool true => "True"
  | Json.bool false => "False"
  | Json.str s => s
  | Json.num q => toString q
  | Json.arr _ => "<list>"
  | Json.obj _ => "<dict>"

/-- The message of the AttributeError raised when json.loads returned a
non-dict value and the code calls data.get on it; Python names the
offending type, rendered here without its quote marks. -/
def attrErrText : Json → String
  | Json.null => "NoneType object has no attribute get"
  | Json.bool _ => "bool object has no attribute get"
  | Json.num _ => "float object has no attribute get"
  | Json.str _ => "str object has no attribute get"
  | Json.arr _ => "list object has no attribute get"
  | Json.obj _ => ""

/-- Lines 31-35 of send_ws_command, applied to the value data returned by
json.loads: when data is a dict, branch on its status and produce the
result value (note data.get("result", "Success") returns whatever is
stored, not necessarily a string); when data is not a dict, data.get
raises AttributeError, modelled as none, which the generic except handler
will catch. -/
def interpretData : Json → Option Json
  | Json.obj fs =>
      some (if isSuccessStatus (fs.lookup "status")
            then (fs.lookup "result").getD (Json.str "Success")
            else Json.str ("Error: " ++ pyStr ((fs.lookup "message").getD Json.null)))
  | _ => none

/-- The outcome of the connect / send / recv / json.loads sequence inside
the try block of send_ws_command, tagged by the exception class the Python
runtime raises, or the parsed reply value. The String arguments carry the
str() of the exception. -/
inductive WireOutcome where
  | refused : WireOutcome
  | timeoutErr : String → WireOutcome
  | transportLost : String → WireOutcome
  | unparseable : String → WireOutcome
  | parsed : Json → WireOutcome

/-- The value send_ws_command returns for a given exchange outcome:
ConnectionRefusedError has its own handler, every other exception falls to
the generic except-Exception handler producing the WebSocket Error string,
and a parsed reply goes through interpretData. -/
def send_ws_command : WireOutcome → Json
  | WireOutcome.refused => Json.str "Could not connect to Unity. Is the project open?"
  | WireOutcome.timeoutErr e => Json.str ("WebSocket Error: " ++ e)
  | WireOutcome.transportLost e => Json.str ("WebSocket Error: " ++ e)
  | WireOutcome.unparseable e => Json.str ("WebSocket Error: " ++ e)
  | WireOutcome.parsed data =>
      match interpretData data with
      | some r => r
      | none => Json.str ("WebSocket Error: " ++ attrErrText data)

/-- ping_unity: its try block either opens the connection or any exception
lands in the bare except; both paths return a fixed string. -/
def ping_unity (connected : Bool) : String :=
  if connected then "Connected to Unity WebSocket Server!"
  else "Failed to connect to Unity."

/-- create_game_object with its positional defaults already resolved: the
payload carries the name and a fully populated position dict. -/
def create_game_object (name : String) (position_x position_y position_z : Rat) :
    List (String × Json) :=
  wsPayload "CreateObject" (some name) none none none
    (some (vec3 position_x position_y position_z)) none none

/-- A call to create_game_object in which each coordinate may be omitted by
the caller; Python then substitutes the declared default 0. -/
def create_game_object_call (name : String) (position_x position_y position_z : Option Rat) :
    List (String × Json) :=
  create_game_object name (position_x.getD 0) (position_y.getD 0) (position_z.getD 0)

/-- modify_transform: every float parameter defaults to None, so a caller
omitting it yields none here. Each triple is turned into a dict exactly
when its first component is not None, with the remaining components
inserted as they are (possibly None). -/
def modify_transform (name : String)
    (pos_x pos_y pos_z rot_x rot_y rot_z scale_x scale_y scale_z : Option Rat) :
    List (String × Json) :=
  wsPayload "ModifyTransform" (some name) none none none
    (if pos_x.isSome then some (vec3Opt pos_x pos_y pos_z) else none)
    (if rot_x.isSome then some (vec3Opt rot_x rot_y rot_z) else none)
    (if scale_x.isSome then some (vec3Opt scale_x scale_y scale_z) else none)

/-- create_material with its colour defaults already resolved: the colour
triple is placed into the position slot. -/
def create_material (material_name : String) (r g b : Rat) : List (String × Json) :=
  wsPayload "CreateMaterial" (some material_name) none none none
    (some (vec3 r g b)) none none

/-- The five caller-visible error classes of the spec taxonomy, as outcomes
of the exchange: HostUnavailable (refused), Timeout, TransportLost,
MalformedReply (text json.loads rejects, or a parsed value that is not a
record), and HostRejected (a record whose status is the string error). -/
def errorClassOutcome : WireOutcome → Bool
  | WireOutcome.refused => true
  | WireOutcome.timeoutErr _ => true
  | WireOutcome.transportLost _ => true
  | WireOutcome.unparseable _ => true
  | WireOutcome.parsed (Json.obj fs) => isErrorStatus (fs.lookup "status")
  | WireOutcome.parsed _ => true

/-- The shape of every result the except handlers of send_ws_command can
produce: a string carrying the WebSocket Error marker. A json.loads
failure or a dict-access failure surfaces in exactly this form, so a
malformed-reply failure, were one signalled, would be of this shape. -/
def isExceptionPathResult (j : Json) : Prop :=
  ∃ e : String, j = Json.str ("WebSocket Error: " ++ e)

/-- A looked-up status value other than the string success makes the
Python comparison with success false. -/
theorem isSuccessStatus_eq_false :
    ∀ v : Option Json, v ≠ some (Json.str "success") → isSuccessStatus v = false
  | none, _ => rfl
  | some Json.null, _ => rfl
  | some (Json.bool _), _ => rfl
  | some (Json.num _), _ => rfl
  | some (Json.arr _), _ => rfl
  | some (Json.obj _), _ => rfl
  | some (Json.str s), h => by
      simp only [isSuccessStatus, beq_eq_false_iff_ne, ne_eq]
      intro hs
      exact h (by rw [hs])

/-- A status equal to the string error is in particular not the string
success. -/
theorem error_status_not_success :
    ∀ v : Option Json, isErrorStatus v = true → isSuccessStatus v = false
  | some (Json.str s), h => by
      simp only [isErrorStatus, beq_iff_eq] at h
      subst h
      rfl
  | none, h => Bool.noConfusion h
  | some Json.null, h => Bool.noConfusion h
  | some (Json.bool _), h => Bool.noConfusion h
  | some (Json.num _), h => Bool.noConfusion h
  | some (Json.arr _), h => Bool.noConfusion h
  | some (Json.obj _), h => Bool.noConfusion h

/-- Claim C1 (code bug): at the failing input, name Cube with pos_x equal
to 1 and every other component omitted, modify_transform places into the
command a position dict whose missing components are silently filled with
the null default; the incomplete triple is neither rejected nor treated
as no change. -/
theorem modify_transform_incomplete_triple_null_filled :
    (modify_transform "Cube" (some 1) none none none none none none none none).lookup "param_pos"
      = some (Json.obj [("x", Json.num 1), ("y", Json.null), ("z", Json.null)]) := rfl

/-- Claim C2: every exchange outcome in one of the five error classes
(host unavailable, timeout, transport lost, malformed reply, host
rejection) makes send_ws_command return a string, and ping_unity returns
one of its two fixed strings on every outcome; none of the error classes
escapes the bridge as an uncaught fault. -/
theorem bridge_error_classes_return_strings (o : WireOutcome) (b : Bool)
    (h : errorClassOutcome o = true) :
    (∃ s : String, send_ws_command o = Json.str s) ∧
    (ping_unity b = "Connected to Unity WebSocket Server!" ∨
      ping_unity b = "Failed to connect to Unity.") := by
  refine ⟨?_, ?_⟩
  · cases o with
    | refused => exact ⟨_, rfl⟩
    | timeoutErr e => exact ⟨_, rfl⟩
    | transportLost e => exact ⟨_, rfl⟩
    | unparseable e => exact ⟨_, rfl⟩
    | parsed data =>
        cases data with
        | obj fs =>
            have hs : isSuccessStatus (fs.lookup "status") = false :=
              error_status_not_success _ h
            exact ⟨"Error: " ++ pyStr ((fs.lookup "message").getD Json.null),
              by simp [send_ws_command, interpretData, hs]⟩
        | null => exact ⟨_, rfl⟩
        | bool x => exact ⟨_, rfl⟩
        | num x => exact ⟨_, rfl⟩
        | str x => exact ⟨_, rfl⟩
        | arr x => exact ⟨_, rfl⟩
  · cases b
    · exact Or.inr rfl
    · exact Or.inl rfl

/-- Witness for claim C2 at a concrete host-rejection reply and a failed
ping. -/
theorem bridge_error_classes_return_strings_witness :
    errorClassOutcome (WireOutcome.parsed (Json.obj
      [("status", Json.str "error"), ("message", Json.str "boom")])) = true ∧
    ((∃ s : String, send_ws_command (WireOutcome.parsed (Json.obj
        [("status", Json.str "error"), ("message", Json.str "boom")])) = Json.str s) ∧
     (ping_unity false = "Connected to Unity WebSocket Server!" ∨
       ping_unity false = "Failed to connect to Unity.")) :=
  ⟨rfl, bridge_error_classes_return_strings _ false rfl⟩

/-- Claim C3 counterexample: a reply whose status is the unrecognized
value bogus is not a decode failure: the code answers through the
ordinary error branch, not through the exception path that reports
malformed input. -/
theorem unrecognized_status_reply_not_malformed :
    ¬ isExceptionPathResult (send_ws_command (WireOutcome.parsed
        (Json.obj [("status", Json.str "bogus"), ("message", Json.str "m")]))) := by
  rintro ⟨e, h⟩
  have h2 : send_ws_command (WireOutcome.parsed
      (Json.obj [("status", Json.str "bogus"), ("message", Json.str "m")]))
      = Json.str "Error: m" := rfl
  have h1 : ("Error: m" : String) = "WebSocket Error: " ++ e := by
    injection h2.symm.trans h
  have h3 := congrArg String.length h1
  rw [String.length_append] at h3
  have h4 : ("Error: m" : String).length = 8 := rfl
  have h5 : ("WebSocket Error: " : String).length = 17 := rfl
  rw [h4, h5] at h3
  omega

/-- Claim C3 amended: an unparseable payload does fail, its JSONDecodeError
being caught and reported through the exception path; but a parsed reply
whose status is missing or unrecognized is not treated as malformed: every
status other than the string success takes the error branch and yields the
Error-labelled string built from the message field. -/
theorem decode_and_status_error_behaviour (e : String) (fs : List (String × Json))
    (h : fs.lookup "status" ≠ some (Json.str "success")) :
    isExceptionPathResult (send_ws_command (WireOutcome.unparseable e)) ∧
    send_ws_command (WireOutcome.parsed (Json.obj fs))
      = Json.str ("Error: " ++ pyStr ((fs.lookup "message").getD Json.null)) := by
  refine ⟨⟨e, rfl⟩, ?_⟩
  simp [send_ws_command, interpretData, isSuccessStatus_eq_false _ h]

/-- Witness for the amended claim C3 at a concrete unparseable text and a
concrete status-free reply. -/
theorem decode_and_status_error_behaviour_witness :
    [("result", Json.str "x")].lookup "status" ≠ some (Json.str "success") ∧
    (isExceptionPathResult (send_ws_command (WireOutcome.unparseable "bad json")) ∧
     send_ws_command (WireOutcome.parsed (Json.obj [("result", Json.str "x")]))
       = Json.str ("Error: " ++
           pyStr (([("result", Json.str "x")].lookup "message").getD Json.null))) :=
  ⟨fun h => Option.noConfusion h,
   decode_and_status_error_behaviour "bad json" _ (fun h => Option.noConfusion h)⟩

/-- Claim C4: every encoded command message carries the method key plus
exactly one key per fixed slot, for every choice of arguments and hence
for every operation; a slot an operation leaves unused is still present,
bound to its explicit marker: the empty string for the four string slots
and null for the three vector slots. -/
theorem payload_contains_every_slot_key (method : String)
    (name string_param second_param value_param : Option String)
    (position rotation scale : Option Json) :
    ((wsPayload method name string_param second_param value_param position rotation
        scale).map Prod.fst
      = ["method", "param_name", "param_string", "param_second", "param_value",
         "param_pos", "param_rot", "param_scale"]) ∧
    (name = none →
      (wsPayload method name string_param second_param value_param position rotation
        scale).lookup "param_name" = some (Json.str "")) ∧
    (string_param = none →
      (wsPayload method name string_param second_param value_param position rotation
        scale).lookup "param_string" = some (Json.str "")) ∧
    (second_param = none →
      (wsPayload method name string_param second_param value_param position rotation
        scale).lookup "param_second" = some (Json.str "")) ∧
    (value_param = none →
      (wsPayload method name string_param second_param value_param position rotation
        scale).lookup "param_value" = some (Json.str "")) ∧
    (position = none →
      (wsPayload method name string_param second_param value_param position rotation
        scale).lookup "param_pos" = some Json.null) ∧
    (rotation = none →
      (wsPayload method name string_param second_param value_param position rotation
        scale).lookup "param_rot" = some Json.null) ∧
    (scale = none →
      (wsPayload method name string_param second_param value_param position rotation
        scale).lookup "param_scale" = some Json.null) := by
  refine ⟨rfl, ?_, ?_, ?_, ?_, ?_, ?_, ?_⟩ <;> (intro h; subst h; rfl)

/-- Witness for claim C4 at a concrete method with every slot unused. -/
theorem payload_contains_every_slot_key_witness :
    ((wsPayload "M" none none none none none none none).map Prod.fst
      = ["method", "param_name", "param_string", "param_second", "param_value",
         "param_pos", "param_rot", "param_scale"]) ∧
    (wsPayload "M" none none none none none none none).lookup "param_name"
      = some (Json.str "") ∧
    (wsPayload "M" none none none none none none none).lookup "param_string"
      = some (Json.str "") ∧
    (wsPayload "M" none none none none none none none).lookup "param_second"
      = some (Json.str "") ∧
    (wsPayload "M" none none none none none none none).lookup "param_value"
      = some (Json.str "") ∧
    (wsPayload "M" none none none none none none none).lookup "param_pos"
      = some Json.null ∧
    (wsPayload "M" none none none none none none none).lookup "param_rot"
      = some Json.null ∧
    (wsPayload "M" none none none none none none none).lookup "param_scale"
      = some Json.null := by
  have h := payload_contains_every_slot_key "M" none none none none none none none
  exact ⟨h.1, h.2.1 rfl, h.2.2.1 rfl, h.2.2.2.1 rfl, h.2.2.2.2.1 rfl, h.2.2.2.2.2.1 rfl,
    h.2.2.2.2.2.2.1 rfl, h.2.2.2.2.2.2.2 rfl⟩

/-- Claim C5: on a reply whose status is success the bridge returns the
result string of the reply, and the fixed default Success when the result
key is absent. -/
theorem success_reply_result_extraction (fs : List (String × Json)) (r : String)
    (hs : fs.lookup "status" = some (Json.str "success")) :
    (fs.lookup "result" = some (Json.str r) →
      send_ws_command (WireOutcome.parsed (Json.obj fs)) = Json.str r) ∧
    (fs.lookup "result" = none →
      send_ws_command (WireOutcome.parsed (Json.obj fs)) = Json.str "Success") := by
  constructor <;> intro hr <;>
    simp [send_ws_command, interpretData, hs, hr, isSuccessStatus]

/-- Witness for claim C5 at the concrete reply of the spec example. -/
theorem success_reply_result_extraction_witness :
    ([("status", Json.str "success"), ("result", Json.str "OK")].lookup "status"
      = some (Json.str "success")) ∧
    (([("status", Json.str "success"), ("result", Json.str "OK")].lookup "result"
        = some (Json.str "OK") →
      send_ws_command (WireOutcome.parsed (Json.obj
        [("status", Json.str "success"), ("result", Json.str "OK")])) = Json.str "OK") ∧
     ([("status", Json.str "success"), ("result", Json.str "OK")].lookup "result" = none →
      send_ws_command (WireOutcome.parsed (Json.obj
        [("status", Json.str "success"), ("result", Json.str "OK")]))
        = Json.str "Success")) :=
  ⟨rfl, success_reply_result_extraction _ "OK" rfl⟩

/-- Claim C6: a reply with status error carrying a string message yields a
formatted result string that contains the message. -/
theorem error_reply_embeds_message (fs : List (String × Json)) (m : String)
    (hs : fs.lookup "status" = some (Json.str "error"))
    (hm : fs.lookup "message" = some (Json.str m)) :
    ∃ p q : String,
      send_ws_command (WireOutcome.parsed (Json.obj fs)) = Json.str (p ++ m ++ q) := by
  refine ⟨"Error: ", "", ?_⟩
  have hss : isSuccessStatus (fs.lookup "status") = false := by rw [hs]; rfl
  simp [send_ws_command, interpretData, hss, hm, pyStr, String.append_empty]

/-- Witness for claim C6 at the concrete reply of the spec example. -/
theorem error_reply_embeds_message_witness :
    ([("status", Json.str "error"), ("message", Json.str "Object not found")].lookup
        "status" = some (Json.str "error")) ∧
    ([("status", Json.str "error"), ("message", Json.str "Object not found")].lookup
        "message" = some (Json.str "Object not found")) ∧
    ∃ p q : String,
      send_ws_command (WireOutcome.parsed (Json.obj
        [("status", Json.str "error"), ("message", Json.str "Object not found")]))
        = Json.str (p ++ "Object not found" ++ q) :=
  ⟨rfl, rfl, error_reply_embeds_message _ "Object not found" rfl rfl⟩

/-- Claim C7: create_material encodes its colour through the position
slot: its param_pos entry is the x y z dict holding r g b, and coincides
with the param_pos entry create_game_object produces for the same three
numbers. -/
theorem create_material_color_reuses_position_slot (mname oname : String) (r g b : Rat) :
    (create_material mname r g b).lookup "param_pos" = some (vec3 r g b) ∧
    (create_material mname r g b).lookup "param_pos"
      = (create_game_object oname r g b).lookup "param_pos" :=
  ⟨rfl, rfl⟩

/-- Claim C8: in modify_transform each triple reaches the command exactly
when its first component is present; with the first component absent the
slot holds null, the whole triple left out rather than filled by parts. -/
theorem modify_transform_triples_first_component_gates (name : String)
    (pos_x pos_y pos_z rot_x rot_y rot_z scale_x scale_y scale_z : Option Rat) :
    ((modify_transform name pos_x pos_y pos_z rot_x rot_y rot_z scale_x scale_y
        scale_z).lookup "param_pos"
      = if pos_x.isSome then some (vec3Opt pos_x pos_y pos_z) else some Json.null) ∧
    ((modify_transform name pos_x pos_y pos_z rot_x rot_y rot_z scale_x scale_y
        scale_z).lookup "param_rot"
      = if rot_x.isSome then some (vec3Opt rot_x rot_y rot_z) else some Json.null) ∧
    ((modify_transform name pos_x pos_y pos_z rot_x rot_y rot_z scale_x scale_y
        scale_z).lookup "param_scale"
      = if scale_x.isSome then some (vec3Opt scale_x scale_y scale_z)
        else some Json.null) := by
  refine ⟨?_, ?_, ?_⟩
  · cases pos_x <;> cases rot_x <;> cases scale_x <;> rfl
  · cases pos_x <;> cases rot_x <;> cases scale_x <;> rfl
  · cases pos_x <;> cases rot_x <;> cases scale_x <;> rfl

/-- Claim C9: a success reply that carries the result key bound to an
explicit null is passed through as that null, not replaced by the Success
default, which is substituted only when the key is missing entirely. -/
theorem success_null_result_passed_through (fs : List (String × Json))
    (hs : fs.lookup "status" = some (Json.str "success"))
    (hr : fs.lookup "result" = some Json.null) :
    send_ws_command (WireOutcome.parsed (Json.obj fs)) = Json.null ∧
    send_ws_command (WireOutcome.parsed (Json.obj fs)) ≠ Json.str "Success" := by
  have h1 : send_ws_command (WireOutcome.parsed (Json.obj fs)) = Json.null := by
    simp [send_ws_command, interpretData, hs, hr, isSuccessStatus]
  exact ⟨h1, by rw [h1]; exact fun h => Json.noConfusion h⟩

/-- Witness for claim C9 at a concrete reply with an explicit null
result. -/
theorem success_null_result_passed_through_witness :
    ([("status", Json.str "success"), ("result", Json.null)].lookup "status"
      = some (Json.str "success")) ∧
    ([("status", Json.str "success"), ("result", Json.null)].lookup "result"
      = some Json.null) ∧
    (send_ws_command (WireOutcome.parsed (Json.obj
        [("status", Json.str "success"), ("result", Json.null)])) = Json.null ∧
     send_ws_command (WireOutcome.parsed (Json.obj
        [("status", Json.str "success"), ("result", Json.null)])) ≠ Json.str "Success") :=
  ⟨rfl, rfl, success_null_result_passed_through _ rfl rfl⟩

/-- Claim C10: a create_game_object call always sends a fully populated
position dict, any coordinate the caller omits defaulting to 0; the
position slot is always an object for this operation, never the absent
null. -/
theorem create_game_object_position_always_populated (name : String)
    (position_x position_y position_z : Option Rat) :
    (create_game_object_call name position_x position_y position_z).lookup "param_pos"
      = some (vec3 (position_x.getD 0) (position_y.getD 0) (position_z.getD 0)) ∧
    ∃ entries, (create_game_object_call name position_x position_y position_z).lookup
        "param_pos" = some (Json.obj entries) :=
  ⟨rfl, _, rfl⟩

end UnityMCP
